import Mathlib

/-!
Shallow embedding of the on-chain document-signing client (`app.py`):
document fingerprinting (SHA-256 content hash, mock MD5-based IPFS CID),
transaction orchestration (`create_signing_contract`, `sign_document`),
status reconciliation (`get_contract_status`) and the per-initiator
contract directory (`get_user_contracts`), together with the pure
required-signers preparation done by the create-contract UI handler.

External collaborators (the JSON-RPC endpoint, the factory and signer
contracts, `eth_account`) are modelled as explicit oracle records whose
fallible calls return `Except`; Python exceptions become `Except.error`,
`try/except/continue` becomes a match that skips the erroneous item, and
broadcast side effects are recorded in an explicit action trace.
-/

namespace OnchainApp

/-! ## Python-semantics primitives -/

/-- `list(dict.fromkeys(l))`: deduplicate keeping the first occurrence of
each element, in order.  `seen` is the set of keys already inserted. -/
def pyDictFromKeysAux (seen : List String) : List String → List String
  | [] => []
  | a :: as =>
    if a ∈ seen then pyDictFromKeysAux seen as
    else a :: pyDictFromKeysAux (a :: seen) as

/-- `list(dict.fromkeys(l))` with an empty initial key set. -/
def pyDictFromKeys (l : List String) : List String :=
  pyDictFromKeysAux [] l

/-- Python list indexing `l[i]` for a possibly negative `i`: a negative
index counts from the end (`l[-1]` is the last element); an index out of
range after that adjustment raises `IndexError` (here: `none`). -/
def pyListGet (l : List String) (i : Int) : Option String :=
  let j : Int := if i < 0 then i + l.length else i
  if 0 ≤ j then l.get? j.toNat else none

/-- Python truthiness of `s.strip()`: stripping whitespace from both ends
leaves a non-empty string, i.e. some character is not whitespace. -/
def pyStripTruthy (s : String) : Bool :=
  s.data.any (fun c => !c.isWhitespace)

/-! ## Required-signers preparation (create-contract UI handler)

```
required_signers = [initiator_address] + [s for s in st.session_state.signers if s.strip()]
required_signers = list(dict.fromkeys(required_signers))  # Remove duplicates
```
-/

/-- The list fed to `dict.fromkeys`: the initiator's address followed by
the caller-supplied signer strings that are non-empty after stripping. -/
def requiredSignersInput (initiator_address : String) (signers : List String) : List String :=
  initiator_address :: signers.filter pyStripTruthy

/-- The deduplicated required-signers list submitted to contract creation. -/
def required_signers_of (initiator_address : String) (signers : List String) : List String :=
  pyDictFromKeys (requiredSignersInput initiator_address signers)

/-! ## Lifecycle status mapping (`get_contract_status`)

```
status_names = ["INITIATED", "IN_PROGRESS", "COMPLETED", "CANCELLED"]
'status': status_names[status] if status < len(status_names) else "UNKNOWN"
```
The guard only checks `status < 4`; a negative `status` passes the guard
and is resolved by Python's negative indexing.
-/

def status_names : List String :=
  ["INITIATED", "IN_PROGRESS", "COMPLETED", "CANCELLED"]

/-- `status_names[status] if status < len(status_names) else "UNKNOWN"`,
with Python indexing semantics; `Except.error` is the `IndexError` path. -/
def statusNameOfCode (status : Int) : Except String String :=
  if status < (status_names.length : Int) then
    match pyListGet status_names status with
    | some s => .ok s
    | none => .error "IndexError: list index out of range"
  else .ok "UNKNOWN"

/-! ## 32-bit word arithmetic

`hashlib.sha256` / `hashlib.md5` work on 32-bit words; we model words as
`Nat` reduced modulo `2^32` at every arithmetic step. -/

def w32 : Nat := 4294967296

def rotl32 (x n : Nat) : Nat := ((x <<< n) ||| (x >>> (32 - n))) % w32

def rotr32 (x n : Nat) : Nat := ((x >>> n) ||| (x <<< (32 - n))) % w32

def not32 (x : Nat) : Nat := x ^^^ 4294967295

/-- Iterate a function `n` times. -/
def iterateN (f : α → α) : Nat → α → α
  | 0, a => a
  | n + 1, a => iterateN f n (f a)

/-- Split a byte list into 64-byte blocks, structurally recursive on a
fuel argument so that the kernel can evaluate it. -/
def toBlocksFuel : Nat → List Nat → List (List Nat)
  | 0, _ => []
  | _ + 1, [] => []
  | fuel + 1, l => l.take 64 :: toBlocksFuel fuel (l.drop 64)

/-- Split a byte list into 64-byte blocks (the input length is always a
multiple of 64 after padding); `l.length` is enough fuel because every
step consumes at least one element. -/
def toBlocks (l : List Nat) : List (List Nat) :=
  toBlocksFuel l.length l

/-- Big-endian 4-byte rendering of a 32-bit word. -/
def word32BytesBE (x : Nat) : List Nat :=
  [x >>> 24 % 256, x >>> 16 % 256, x >>> 8 % 256, x % 256]

/-- Little-endian 4-byte rendering of a 32-bit word. -/
def word32BytesLE (x : Nat) : List Nat :=
  [x % 256, x >>> 8 % 256, x >>> 16 % 256, x >>> 24 % 256]

/-- Big-endian 8-byte rendering of a 64-bit length field. -/
def len64BytesBE (n : Nat) : List Nat :=
  [n >>> 56 % 256, n >>> 48 % 256, n >>> 40 % 256, n >>> 32 % 256,
   n >>> 24 % 256, n >>> 16 % 256, n >>> 8 % 256, n % 256]

/-- Little-endian 8-byte rendering of a 64-bit length field. -/
def len64BytesLE (n : Nat) : List Nat :=
  [n % 256, n >>> 8 % 256, n >>> 16 % 256, n >>> 24 % 256,
   n >>> 32 % 256, n >>> 40 % 256, n >>> 48 % 256, n >>> 56 % 256]

/-- Parse consecutive 4-byte groups as big-endian 32-bit words. -/
def toWordsBE : List Nat → List Nat
  | b0 :: b1 :: b2 :: b3 :: rest =>
    (((b0 % 256) <<< 24) ||| ((b1 % 256) <<< 16) ||| ((b2 % 256) <<< 8) ||| (b3 % 256))
      :: toWordsBE rest
  | _ => []

/-- Parse consecutive 4-byte groups as little-endian 32-bit words. -/
def toWordsLE : List Nat → List Nat
  | b0 :: b1 :: b2 :: b3 :: rest =>
    ((b0 % 256) ||| ((b1 % 256) <<< 8) ||| ((b2 % 256) <<< 16) ||| ((b3 % 256) <<< 24))
      :: toWordsLE rest
  | _ => []

/-! ## SHA-256 (`hashlib.sha256`) -/

def sha256K : List Nat :=
  [1116352408, 1899447441, 3049323471, 3921009573, 961987163,
   1508970993, 2453635748, 2870763221, 3624381080, 310598401,
   607225278, 1426881987, 1925078388, 2162078206, 2614888103,
   3248222580, 3835390401, 4022224774, 264347078, 604807628,
   770255983, 1249150122, 1555081692, 1996064986, 2554220882,
   2821834349, 2952996808, 3210313671, 3336571891, 3584528711,
   113926993, 338241895, 666307205, 773529912, 1294757372,
   1396182291, 1695183700, 1986661051, 2177026350, 2456956037,
   2730485921, 2820302411, 3259730800, 3345764771, 3516065817,
   3600352804, 4094571909, 275423344, 430227734, 506948616,
   659060556, 883997877, 958139571, 1322822218, 1537002063,
   1747873779, 1955562222, 2024104815, 2227730452, 2361852424,
   2428436474, 2756734187, 3204031479, 3329325298]

/-- Running hash state: eight 32-bit words. -/
structure Hash8 where
  h0 : Nat
  h1 : Nat
  h2 : Nat
  h3 : Nat
  h4 : Nat
  h5 : Nat
  h6 : Nat
  h7 : Nat

def sha256Init : Hash8 :=
  ⟨1779033703, 3144134277, 1013904242, 2773480762,
   1359893119, 2600822924, 528734635, 1541459225⟩

/-- SHA-256 padding: `0x80`, zeros to 56 mod 64, 8-byte big-endian bit length. -/
def sha256Pad (msg : List Nat) : List Nat :=
  msg ++ [128] ++ List.replicate ((119 - msg.length % 64) % 64) 0
      ++ len64BytesBE (8 * msg.length)

/-- One step of the message-schedule extension: append
`σ1(W[t-2]) + W[t-7] + σ0(W[t-15]) + W[t-16]`. -/
def sha256ExtendStep (acc : List Nat) : List Nat :=
  let n := acc.length
  let x2 := acc.getD (n - 2) 0
  let x7 := acc.getD (n - 7) 0
  let x15 := acc.getD (n - 15) 0
  let x16 := acc.getD (n - 16) 0
  let s0 := rotr32 x15 7 ^^^ rotr32 x15 18 ^^^ (x15 >>> 3)
  let s1 := rotr32 x2 17 ^^^ rotr32 x2 19 ^^^ (x2 >>> 10)
  acc ++ [(s1 + x7 + s0 + x16) % w32]

/-- One compression round from round constant `k` and schedule word `m`. -/
def sha256Round (st : Hash8) (km : Nat × Nat) : Hash8 :=
  let a := st.h0
  let b := st.h1
  let c := st.h2
  let d := st.h3
  let e := st.h4
  let f := st.h5
  let g := st.h6
  let h := st.h7
  let bs1 := rotr32 e 6 ^^^ rotr32 e 11 ^^^ rotr32 e 25
  let ch := (e &&& f) ^^^ (not32 e &&& g)
  let t1 := (h + bs1 + ch + km.1 + km.2) % w32
  let bs0 := rotr32 a 2 ^^^ rotr32 a 13 ^^^ rotr32 a 22
  let mj := (a &&& b) ^^^ (a &&& c) ^^^ (b &&& c)
  let t2 := (bs0 + mj) % w32
  ⟨(t1 + t2) % w32, a, b, c, (d + t1) % w32, e, f, g⟩

/-- Compress one 64-byte block into the running state. -/
def sha256Compress (st : Hash8) (block : List Nat) : Hash8 :=
  let ws := iterateN sha256ExtendStep 48 (toWordsBE block)
  let r := (sha256K.zip ws).foldl sha256Round st
  ⟨(st.h0 + r.h0) % w32, (st.h1 + r.h1) % w32, (st.h2 + r.h2) % w32, (st.h3 + r.h3) % w32,
   (st.h4 + r.h4) % w32, (st.h5 + r.h5) % w32, (st.h6 + r.h6) % w32, (st.h7 + r.h7) % w32⟩

def sha256Final (msg : List Nat) : Hash8 :=
  (toBlocks (sha256Pad msg)).foldl sha256Compress sha256Init

/-- The 32-byte SHA-256 digest of a byte sequence. -/
def sha256Bytes (msg : List Nat) : List Nat :=
  let h := sha256Final msg
  word32BytesBE h.h0 ++ word32BytesBE h.h1 ++ word32BytesBE h.h2 ++ word32BytesBE h.h3 ++
  word32BytesBE h.h4 ++ word32BytesBE h.h5 ++ word32BytesBE h.h6 ++ word32BytesBE h.h7

/-! ## MD5 (`hashlib.md5`) -/

def md5K : List Nat :=
  [3614090360, 3905402710, 606105819, 3250441966, 4118548399,
   1200080426, 2821735955, 4249261313, 1770035416, 2336552879,
   4294925233, 2304563134, 1804603682, 4254626195, 2792965006,
   1236535329, 4129170786, 3225465664, 643717713, 3921069994,
   3593408605, 38016083, 3634488961, 3889429448, 568446438,
   3275163606, 4107603335, 1163531501, 2850285829, 4243563512,
   1735328473, 2368359562, 4294588738, 2272392833, 1839030562,
   4259657740, 2763975236, 1272893353, 4139469664, 3200236656,
   681279174, 3936430074, 3572445317, 76029189, 3654602809,
   3873151461, 530742520, 3299628645, 4096336452, 1126891415,
   2878612391, 4237533241, 1700485571, 2399980690, 4293915773,
   2240044497, 1873313359, 4264355552, 2734768916, 1309151649,
   4149444226, 3174756917, 718787259, 3951481745]

def md5S : List Nat :=
  [7, 12, 17, 22, 7, 12, 17, 22, 7, 12, 17, 22, 7, 12, 17, 22,
   5, 9, 14, 20, 5, 9, 14, 20, 5, 9, 14, 20, 5, 9, 14, 20,
   4, 11, 16, 23, 4, 11, 16, 23, 4, 11, 16, 23, 4, 11, 16, 23,
   6, 10, 15, 21, 6, 10, 15, 21, 6, 10, 15, 21, 6, 10, 15, 21]

/-- Running MD5 state: four 32-bit words. -/
structure MD5State where
  a : Nat
  b : Nat
  c : Nat
  d : Nat

def md5Init : MD5State := ⟨1732584193, 4023233417, 2562383102, 271733878⟩

/-- MD5 padding: `0x80`, zeros to 56 mod 64, 8-byte little-endian bit length. -/
def md5Pad (msg : List Nat) : List Nat :=
  msg ++ [128] ++ List.replicate ((119 - msg.length % 64) % 64) 0
      ++ len64BytesLE (8 * msg.length)

/-- Round `i` (0 ≤ i < 64) of the MD5 compression over schedule `m`. -/
def md5Round (m : List Nat) (st : MD5State) (i : Nat) : MD5State :=
  let a := st.a
  let b := st.b
  let c := st.c
  let d := st.d
  let fg : Nat × Nat :=
    if i < 16 then ((b &&& c) ||| (not32 b &&& d), i)
    else if i < 32 then ((d &&& b) ||| (not32 d &&& c), (5 * i + 1) % 16)
    else if i < 48 then (b ^^^ c ^^^ d, (3 * i + 5) % 16)
    else (c ^^^ (b ||| not32 d), (7 * i) % 16)
  let f := (fg.1 + a + md5K.getD i 0 + m.getD fg.2 0) % w32
  ⟨d, (b + rotl32 f (md5S.getD i 0)) % w32, b, c⟩

/-- Compress one 64-byte block into the running state. -/
def md5Compress (st : MD5State) (block : List Nat) : MD5State :=
  let m := toWordsLE block
  let r := (List.range 64).foldl (md5Round m) st
  ⟨(st.a + r.a) % w32, (st.b + r.b) % w32, (st.c + r.c) % w32, (st.d + r.d) % w32⟩

def md5Final (msg : List Nat) : MD5State :=
  (toBlocks (md5Pad msg)).foldl md5Compress md5Init

/-- The 16-byte MD5 digest of a byte sequence. -/
def md5Bytes (msg : List Nat) : List Nat :=
  let h := md5Final msg
  word32BytesLE h.a ++ word32BytesLE h.b ++ word32BytesLE h.c ++ word32BytesLE h.d

/-! ## Hex digests and the two fingerprint functions -/

def hexDigits : List Char :=
  "0123456789abcdef".data

def hexDigitChar (n : Nat) : Char := hexDigits.getD n '?'

/-- `%02x` rendering of each byte, as `hexdigest()` does. -/
def bytesToHexChars : List Nat → List Char
  | [] => []
  | b :: bs => hexDigitChar (b / 16) :: hexDigitChar (b % 16) :: bytesToHexChars bs

/-- `hashlib.sha256(b).hexdigest()`. -/
def sha256hex (msg : List Nat) : String := String.mk (bytesToHexChars (sha256Bytes msg))

/-- `hashlib.md5(b).hexdigest()`. -/
def md5hex (msg : List Nat) : String := String.mk (bytesToHexChars (md5Bytes msg))

/-- `hash_document`: SHA-256 content hash of the raw document bytes.
```
sha256 = hashlib.sha256()
sha256.update(file_bytes)
return '0x' + sha256.hexdigest()
``` -/
def hash_document (file_bytes : List Nat) : String :=
  "0x" ++ sha256hex file_bytes

/-- `upload_to_ipfs`: mock CID from the MD5 digest; the `filename`
argument is accepted and never used.
```
file_hash = hashlib.md5(file_bytes).hexdigest()
return f"Qm\x7bfile_hash[:44]\x7d"
``` -/
def upload_to_ipfs (file_bytes : List Nat) (filename : String) : String :=
  "Qm" ++ (md5hex file_bytes).take 44

/-! ## Chain model

External collaborators (JSON-RPC endpoint, `eth_account`, the deployed
factory and signer contracts) are modelled as oracle records; each
fallible call returns `Except String` (a raised Python exception is
`Except.error` with its message). -/

/-- A raw receipt log entry; its meaning is given by the decode oracle. -/
abbrev LogEntry := Nat

/-- Transaction receipt: the mined confirmation with its emitted logs. -/
structure Receipt where
  logs : List LogEntry

/-- The contract call encoded into a built transaction. -/
inductive TxnPayload
  | createSigningContract (document_hash ipfs_cid : String)
      (required_signers : List String) (sequential_signing : Bool)
      (title description : String)
  | signDocument (contract_address metadata : String)
deriving DecidableEq

/-- A built (unsigned) transaction, as produced by `build_transaction`. -/
structure Txn where
  sender : String
  nonce : Nat
  gas : Nat
  gasPrice : Nat
  payload : TxnPayload
deriving DecidableEq

/-- A signed transaction envelope (`rawTransaction` bytes abstracted). -/
structure SignedTxn where
  rawTransaction : Nat
deriving DecidableEq

/-- A transaction hash as returned by `send_raw_transaction`; `hex` is
its `.hex()` rendering. -/
structure TxHash where
  hex : String
deriving DecidableEq

/-- The chain-touching steps of one orchestrated operation, in the order
they are attempted.  `buildTransaction` covers the nonce lookup done
inside `build_transaction`. -/
inductive ChainAction
  | buildTransaction
  | signTransaction
  | sendRawTransaction
  | waitForReceipt
deriving DecidableEq

/-- Oracle record for `w3` / `eth_account` / the factory event decoder. -/
structure ChainEnv where
  from_key : String → Except String String
  get_transaction_count : String → Except String Nat
  sign_transaction : Txn → String → Except String SignedTxn
  send_raw_transaction : SignedTxn → Except String TxHash
  wait_for_transaction_receipt : TxHash → Except String Receipt
  processLog_ContractCreated : LogEntry → Option String

/-- Python truthiness of `not config.factory_address`: unset or empty. -/
def factoryMissing : Option String → Bool
  | none => true
  | some s => s.isEmpty

/-- The event-decoding loop of `create_signing_contract`:
```
for log in tx_receipt.logs:
    try:
        decoded_log = factory.events.ContractCreated().processLog(log)
        return decoded_log.args.contractAddress
    except:
        continue
raise ValueError("Could not find ContractCreated event in transaction receipt")
``` -/
def extractContractAddress (decode : LogEntry → Option String) :
    List LogEntry → Except String String
  | [] => .error "Could not find ContractCreated event in transaction receipt"
  | l :: ls =>
    match decode l with
    | some a => .ok a
    | none => extractContractAddress decode ls

/-- `create_signing_contract`: factory-address guard, then build → sign →
broadcast → wait → decode the `ContractCreated` event.  The second
component is the trace of chain actions attempted, in order. -/
def create_signing_contract (factory_address : Option String) (env : ChainEnv)
    (document_hash ipfs_cid : String) (required_signers : List String)
    (private_key : String) (title description : String)
    (sequential_signing : Bool) :
    Except String String × List ChainAction :=
  if factoryMissing factory_address then
    (.error "Factory address not configured", [])
  else
    match env.from_key private_key with
    | .error e => (.error e, [])
    | .ok sender =>
      match env.get_transaction_count sender with
      | .error e => (.error e, [.buildTransaction])
      | .ok nonce =>
        let txn : Txn :=
          { sender := sender, nonce := nonce, gas := 3000000, gasPrice := 20000000000,
            payload := .createSigningContract document_hash ipfs_cid required_signers
              sequential_signing title description }
        match env.sign_transaction txn private_key with
        | .error e => (.error e, [.buildTransaction, .signTransaction])
        | .ok stx =>
          match env.send_raw_transaction stx with
          | .error e =>
            (.error e, [.buildTransaction, .signTransaction, .sendRawTransaction])
          | .ok txh =>
            match env.wait_for_transaction_receipt txh with
            | .error e =>
              (.error e,
               [.buildTransaction, .signTransaction, .sendRawTransaction, .waitForReceipt])
            | .ok tx_receipt =>
              (extractContractAddress env.processLog_ContractCreated tx_receipt.logs,
               [.buildTransaction, .signTransaction, .sendRawTransaction, .waitForReceipt])

/-- `sign_document`: build → sign → broadcast → wait, returning the
transaction hash; no factory guard and no event decoding. -/
def sign_document (env : ChainEnv) (contract_address : String)
    (private_key : String) (metadata : String) :
    Except String String × List ChainAction :=
  match env.from_key private_key with
  | .error e => (.error e, [])
  | .ok sender =>
    match env.get_transaction_count sender with
    | .error e => (.error e, [.buildTransaction])
    | .ok nonce =>
      let txn : Txn :=
        { sender := sender, nonce := nonce, gas := 200000, gasPrice := 20000000000,
          payload := .signDocument contract_address metadata }
      match env.sign_transaction txn private_key with
      | .error e => (.error e, [.buildTransaction, .signTransaction])
      | .ok stx =>
        match env.send_raw_transaction stx with
        | .error e =>
          (.error e, [.buildTransaction, .signTransaction, .sendRawTransaction])
        | .ok txh =>
          match env.wait_for_transaction_receipt txh with
          | .error e =>
            (.error e,
             [.buildTransaction, .signTransaction, .sendRawTransaction, .waitForReceipt])
          | .ok _ =>
            (.ok txh.hex,
             [.buildTransaction, .signTransaction, .sendRawTransaction, .waitForReceipt])

/-! ## Status reconciliation (`get_contract_status`) -/

/-- One on-chain signature record `(signer, timestamp, hash, metadata)`. -/
structure SignatureRec where
  signer : String
  timestamp : Nat
  sigHash : String
  metadata : String
deriving DecidableEq

/-- Oracle record for one deployed signer contract's getters. -/
structure SignerContract where
  getSignatures : Except String (List SignatureRec)
  isFullySigned : Except String Bool
  getRequiredSigners : Except String (List String)
  getSigningProgress : Except String (Nat × Nat)
  status : Except String Int
  documentHash : Except String String
  ipfsCid : Except String String

/-- The dictionary returned by `get_contract_status`. -/
structure StatusSnapshot where
  signatures : List SignatureRec
  is_fully_signed : Bool
  required_signers : List String
  signed_count : Nat
  total_signers : Nat
  status : String
  document_hash : String
  ipfs_cid : String
deriving DecidableEq

/-- `get_contract_status`: seven independent getter calls merged into one
snapshot; any getter failure (and the `IndexError` of a deeply negative
status code) propagates to the caller. -/
def get_contract_status (c : SignerContract) : Except String StatusSnapshot := do
  let signatures ← c.getSignatures
  let is_fully_signed ← c.isFullySigned
  let required_signers ← c.getRequiredSigners
  let progress ← c.getSigningProgress
  let status ← c.status
  let document_hash ← c.documentHash
  let ipfs_cid ← c.ipfsCid
  let statusName ← statusNameOfCode status
  pure { signatures := signatures, is_fully_signed := is_fully_signed,
         required_signers := required_signers,
         signed_count := progress.1, total_signers := progress.2,
         status := statusName, document_hash := document_hash, ipfs_cid := ipfs_cid }

/-- A signer contract whose getters all succeed with the given values. -/
def mkSignerContract (signatures : List SignatureRec) (is_fully_signed : Bool)
    (required_signers : List String) (progress : Nat × Nat) (status : Int)
    (document_hash ipfs_cid : String) : SignerContract :=
  { getSignatures := .ok signatures, isFullySigned := .ok is_fully_signed,
    getRequiredSigners := .ok required_signers, getSigningProgress := .ok progress,
    status := .ok status, documentHash := .ok document_hash, ipfsCid := .ok ipfs_cid }

/-! ## Contract directory (`get_user_contracts`) -/

/-- The positional `getContractInfo` tuple; index `i` is `fieldi`. -/
structure ContractInfo where
  field0 : String
  field1 : String
  field2 : String
  field3 : Nat
  field4 : Nat
  field5 : Bool
  field6 : String
deriving DecidableEq

/-- Oracle record for the factory contract and the per-address signer
contracts reachable from it. -/
structure FactoryEnv where
  getContractsByInitiator : String → Except String (List String)
  getContractInfo : String → Except String ContractInfo
  signerAt : String → SignerContract

/-- One enriched entry of the `get_user_contracts` listing. -/
structure ContractEntry where
  address : String
  title : String
  document_hash : String
  ipfs_cid : String
  created_at : Nat
  is_active : Bool
  status : String
  progress : String
deriving DecidableEq

/-- The per-address enrichment inside the loop's `try` block:
`getContractInfo` plus `get_contract_status`, then the entry dict. -/
def enrichContract (env : FactoryEnv) (address : String) :
    Except String ContractEntry := do
  let contract_info ← env.getContractInfo address
  let status_info ← get_contract_status (env.signerAt address)
  pure { address := address, title := contract_info.field6,
         document_hash := contract_info.field1, ipfs_cid := contract_info.field2,
         created_at := contract_info.field4, is_active := contract_info.field5,
         status := status_info.status,
         progress := toString status_info.signed_count ++ "/"
           ++ toString status_info.total_signers }

/-- The enrichment loop: a failing entry is logged and skipped
(`except ... continue`), the rest are kept in order. -/
def contractsLoop (env : FactoryEnv) : List String → List ContractEntry
  | [] => []
  | address :: rest =>
    match enrichContract env address with
    | .ok entry => entry :: contractsLoop env rest
    | .error _ => contractsLoop env rest

/-- `get_user_contracts`: returns `[]` when the factory address is
missing, and `[]` when the enumeration itself raises (the outer
`except` logs and returns `[]`); otherwise the enrichment loop. -/
def get_user_contracts (factory_address : Option String) (env : FactoryEnv)
    (user_address : String) : List ContractEntry :=
  if factoryMissing factory_address then []
  else
    match env.getContractsByInitiator user_address with
    | .error _ => []
    | .ok contract_addresses => contractsLoop env contract_addresses

/-- A chain oracle whose every step succeeds with the given values. -/
def mkChainEnv (sender : String) (nonce : Nat) (stx : SignedTxn) (txh : TxHash)
    (receipt : Receipt) (decode : LogEntry → Option String) : ChainEnv :=
  { from_key := fun _ => .ok sender,
    get_transaction_count := fun _ => .ok nonce,
    sign_transaction := fun _ _ => .ok stx,
    send_raw_transaction := fun _ => .ok txh,
    wait_for_transaction_receipt := fun _ => .ok receipt,
    processLog_ContractCreated := decode }

/-! ## Spec-side definition and concrete instances used by witnesses -/

/-- The status-name mapping as the claim words it (spec side, for
comparison with `statusNameOfCode`): codes 0..3 name the four lifecycle
states and every other code, negative included, maps to UNKNOWN. -/
def claimedStatusName (status : Int) : String :=
  if status = 0 then "INITIATED"
  else if status = 1 then "IN_PROGRESS"
  else if status = 2 then "COMPLETED"
  else if status = 3 then "CANCELLED"
  else "UNKNOWN"

/-- Snapshot produced by the `status = -1` counterexample run. -/
def negOneSnapshot : StatusSnapshot :=
  { signatures := [], is_fully_signed := false, required_signers := [],
    signed_count := 0, total_signers := 0, status := "CANCELLED",
    document_hash := "h", ipfs_cid := "c" }

/-- Snapshot produced by the inconsistent-getters counterexample run:
one reported signed, zero stored signatures, zero total signers. -/
def inconsistentSnapshot : StatusSnapshot :=
  { signatures := [], is_fully_signed := false, required_signers := [],
    signed_count := 1, total_signers := 0, status := "INITIATED",
    document_hash := "h", ipfs_cid := "c" }

/-- Concrete event decoder: only the log entry `2` decodes, to `0xC`. -/
def exampleDecode : LogEntry → Option String :=
  fun l => if l = 2 then some "0xC" else none

/-- Concrete `getContractInfo` tuple used by the directory examples. -/
def exampleInfo : ContractInfo :=
  ⟨"0xI", "0xDOC", "QmCID", 0, 1700000000, true, "Title"⟩

/-- Concrete signer contract with two required signatures, none given. -/
def exampleSigner : SignerContract :=
  mkSignerContract [] false [] (0, 2) 0 "0xDOC" "QmCID"

/-- Factory oracle enumerating three contracts whose middle entry fails
to enrich (`getContractInfo` raises for address `0x2`). -/
def exampleFactory : FactoryEnv :=
  { getContractsByInitiator := fun _ => .ok ["0x1", "0x2", "0x3"],
    getContractInfo := fun a => if a = "0x2" then .error "contract unreachable" else .ok exampleInfo,
    signerAt := fun _ => exampleSigner }

/-- The enriched entry the directory produces for a surviving address. -/
def exampleEntry (a : String) : ContractEntry :=
  { address := a, title := "Title", document_hash := "0xDOC", ipfs_cid := "QmCID",
    created_at := 1700000000, is_active := true, status := "INITIATED", progress := "0/2" }

/-- Factory oracle whose per-initiator enumeration itself raises. -/
def failingEnumFactory : FactoryEnv :=
  { getContractsByInitiator := fun _ => .error "RPC error",
    getContractInfo := fun _ => .error "unused",
    signerAt := fun _ => exampleSigner }

/-- Factory oracle reporting an initiator with no contracts. -/
def emptyEnumFactory : FactoryEnv :=
  { getContractsByInitiator := fun _ => .ok [],
    getContractInfo := fun _ => .error "unused",
    signerAt := fun _ => exampleSigner }

/-- Snapshot produced by mutually consistent getter values. -/
def consistentSnapshot : StatusSnapshot :=
  { signatures := [], is_fully_signed := true, required_signers := [],
    signed_count := 0, total_signers := 0, status := "INITIATED",
    document_hash := "h", ipfs_cid := "c" }

instance {ε α : Type _} [DecidableEq ε] [DecidableEq α] : DecidableEq (Except ε α) := fun a b =>
  match a, b with
  | .error e, .error f =>
    if h : e = f then isTrue (congrArg Except.error h)
    else isFalse (fun c => h (Except.error.inj c))
  | .ok x, .ok y =>
    if h : x = y then isTrue (congrArg Except.ok h)
    else isFalse (fun c => h (Except.ok.inj c))
  | .error _, .ok _ => isFalse (fun c => Except.noConfusion c)
  | .ok _, .error _ => isFalse (fun c => Except.noConfusion c)

/-! ## Helper lemmas: digests and hex rendering -/

set_option maxRecDepth 10000

theorem word32BytesBE_lt (x : Nat) : ∀ b ∈ word32BytesBE x, b < 256 := by
  intro b hb
  simp only [word32BytesBE, List.mem_cons, List.not_mem_nil, or_false] at hb
  rcases hb with rfl | rfl | rfl | rfl <;> exact Nat.mod_lt _ (by norm_num)

theorem word32BytesLE_lt (x : Nat) : ∀ b ∈ word32BytesLE x, b < 256 := by
  intro b hb
  simp only [word32BytesLE, List.mem_cons, List.not_mem_nil, or_false] at hb
  rcases hb with rfl | rfl | rfl | rfl <;> exact Nat.mod_lt _ (by norm_num)

theorem sha256Bytes_length (msg : List Nat) : (sha256Bytes msg).length = 32 := rfl

theorem md5Bytes_length (msg : List Nat) : (md5Bytes msg).length = 16 := rfl

theorem sha256Bytes_lt (msg : List Nat) : ∀ b ∈ sha256Bytes msg, b < 256 := by
  intro b hb
  simp only [sha256Bytes, List.mem_append] at hb
  rcases hb with ((((((h | h) | h) | h) | h) | h) | h) | h <;>
    exact word32BytesBE_lt _ b h

theorem md5Bytes_lt (msg : List Nat) : ∀ b ∈ md5Bytes msg, b < 256 := by
  intro b hb
  simp only [md5Bytes, List.mem_append] at hb
  rcases hb with ((h | h) | h) | h <;> exact word32BytesLE_lt _ b h

theorem bytesToHexChars_length (l : List Nat) :
    (bytesToHexChars l).length = 2 * l.length := by
  induction l with
  | nil => rfl
  | cons b bs ih => simp [bytesToHexChars, ih]; omega

theorem hexDigitChar_mem {n : Nat} (h : n < 16) : hexDigitChar n ∈ hexDigits := by
  have hall : ∀ m, m < 16 → hexDigitChar m ∈ hexDigits := by decide
  exact hall n h

theorem bytesToHexChars_mem (l : List Nat) (hl : ∀ b ∈ l, b < 256) :
    ∀ c ∈ bytesToHexChars l, c ∈ hexDigits := by
  induction l with
  | nil => simp [bytesToHexChars]
  | cons b bs ih =>
    intro c hc
    have hb : b < 256 := hl b (List.mem_cons_self b bs)
    simp only [bytesToHexChars, List.mem_cons] at hc
    rcases hc with rfl | rfl | hc
    · exact hexDigitChar_mem (by omega)
    · exact hexDigitChar_mem (by omega)
    · exact ih (fun x hx => hl x (List.mem_cons_of_mem _ hx)) c hc

theorem sha256hex_length (msg : List Nat) : (sha256hex msg).length = 64 := by
  show (bytesToHexChars (sha256Bytes msg)).length = 64
  rw [bytesToHexChars_length, sha256Bytes_length]

theorem md5hex_length (msg : List Nat) : (md5hex msg).length = 32 := by
  show (bytesToHexChars (md5Bytes msg)).length = 32
  rw [bytesToHexChars_length, md5Bytes_length]

/-- Sanity vector: SHA-256 of `b"abc"` matches FIPS 180-2. -/
theorem sha256hex_abc :
    sha256hex [97, 98, 99] =
      "ba7816bf8f01cfea414140de5dae2223b00361a396177a9cb410ff61f20015ad" := by decide

/-- Sanity vector: SHA-256 of the empty byte string. -/
theorem sha256hex_empty :
    sha256hex [] =
      "e3b0c44298fc1c149afbf4c8996fb92427ae41e4649b934ca495991b7852b855" := by decide

/-- Sanity vector: MD5 of `b"abc"` matches RFC 1321. -/
theorem md5hex_abc : md5hex [97, 98, 99] = "900150983cd24fb0d6963f7d28e17f72" := by decide

/-- Sanity vector: MD5 of the empty byte string. -/
theorem md5hex_empty : md5hex [] = "d41d8cd98f00b204e9800998ecf8427e" := by decide

/-! ## Claim theorems -/

/-- C6: `hash_document` is a deterministic pure function of exactly the
raw bytes, equal to `0x` followed by the 64-character lowercase hex
SHA-256 digest of those bytes; equal byte sequences always yield the
same content hash. -/
theorem C6_hash_document_sha256 (b b2 : List Nat) (hb : b2 = b) :
    hash_document b = "0x" ++ sha256hex b
    ∧ hash_document b2 = hash_document b
    ∧ (sha256hex b).length = 64
    ∧ (hash_document b).length = 66
    ∧ (∀ c ∈ (sha256hex b).data, c ∈ hexDigits) := by
  refine ⟨rfl, hb ▸ rfl, sha256hex_length b, ?_, ?_⟩
  · show ("0x" ++ sha256hex b).length = 66
    rw [String.length_append, sha256hex_length]
    decide
  · exact bytesToHexChars_mem _ (sha256Bytes_lt b)

/-- C6 witness: evaluated at the byte sequence of `b"abc"`. -/
theorem C6_hash_document_sha256_witness :
    ([97, 98, 99] : List Nat) = [97, 98, 99]
    ∧ (hash_document [97, 98, 99] = "0x" ++ sha256hex [97, 98, 99]
       ∧ hash_document [97, 98, 99] = hash_document [97, 98, 99]
       ∧ (sha256hex [97, 98, 99]).length = 64
       ∧ (hash_document [97, 98, 99]).length = 66
       ∧ (∀ c ∈ (sha256hex [97, 98, 99]).data, c ∈ hexDigits)) :=
  ⟨rfl, C6_hash_document_sha256 [97, 98, 99] [97, 98, 99] rfl⟩

/-- C9: `upload_to_ipfs` ignores its filename argument and returns the
deterministic 34-character string `Qm` followed by the 32-character MD5
hex digest of the bytes (the `[:44]` slice keeps all 32 characters). -/
theorem C9_upload_to_ipfs_filename_free (b : List Nat) (f1 f2 : String) :
    upload_to_ipfs b f1 = upload_to_ipfs b f2
    ∧ upload_to_ipfs b f1 = "Qm" ++ md5hex b
    ∧ (md5hex b).length = 32
    ∧ (upload_to_ipfs b f1).length = 34 := by
  have htake : (md5hex b).take 44 = md5hex b := by
    rw [String.take_eq]
    rw [List.take_of_length_le (by rw [show (md5hex b).data.length = (md5hex b).length from rfl, md5hex_length]; omega)]
  refine ⟨rfl, ?_, md5hex_length b, ?_⟩
  · show "Qm" ++ (md5hex b).take 44 = "Qm" ++ md5hex b
    rw [htake]
  · show ("Qm" ++ (md5hex b).take 44).length = 34
    rw [htake, String.length_append, md5hex_length]
    decide

/-! ## Helper lemmas: status reconciliation -/

theorem get_contract_status_mk (sigs : List SignatureRec) (fs : Bool) (rs : List String)
    (p : Nat × Nat) (st : Int) (dh cid : String) :
    get_contract_status (mkSignerContract sigs fs rs p st dh cid) =
      (statusNameOfCode st).map (fun nm =>
        { signatures := sigs, is_fully_signed := fs, required_signers := rs,
          signed_count := p.1, total_signers := p.2, status := nm,
          document_hash := dh, ipfs_cid := cid }) := by
  cases h : statusNameOfCode st <;>
    simp [get_contract_status, mkSignerContract, h, Except.map, Bind.bind, Except.bind,
      Pure.pure, Except.pure]

/-- C3 counterexample: at the status code `-1` the snapshot's status is
`CANCELLED` (Python's negative indexing picks the last list element),
not the `UNKNOWN` the claim requires for every code outside 0..3. -/
theorem C3_counterexample_negative_code :
    get_contract_status (mkSignerContract [] false [] (0, 0) (-1) "h" "c") = .ok negOneSnapshot
    ∧ negOneSnapshot.status = "CANCELLED"
    ∧ claimedStatusName (-1) = "UNKNOWN"
    ∧ negOneSnapshot.status ≠ "UNKNOWN" :=
  ⟨rfl, rfl, rfl, by decide⟩

/-- C3 (amended): for every non-negative status code, `get_contract_status`
maps 0, 1, 2, 3 to INITIATED, IN_PROGRESS, COMPLETED, CANCELLED and every
code ≥ 4 to UNKNOWN, without raising; negative codes are excluded (Python
negative indexing resolves -1..-4 to a name from the end of the list and
raises IndexError below -4). -/
theorem C3_amended_status_mapping (st : Int) (sigs : List SignatureRec) (fs : Bool)
    (rs : List String) (p : Nat × Nat) (dh cid : String) (h : 0 ≤ st) :
    statusNameOfCode st = .ok (claimedStatusName st)
    ∧ get_contract_status (mkSignerContract sigs fs rs p st dh cid) =
        .ok { signatures := sigs, is_fully_signed := fs, required_signers := rs,
              signed_count := p.1, total_signers := p.2, status := claimedStatusName st,
              document_hash := dh, ipfs_cid := cid } := by
  have h1 : statusNameOfCode st = .ok (claimedStatusName st) := by
    by_cases h4 : st < 4
    · interval_cases st <;> rfl
    · have hlen : ¬ st < (status_names.length : Int) := by
        simp only [status_names, List.length_cons, List.length_nil]
        omega
      unfold statusNameOfCode claimedStatusName
      rw [if_neg hlen, if_neg (by omega), if_neg (by omega), if_neg (by omega),
        if_neg (by omega)]
  refine ⟨h1, ?_⟩
  rw [get_contract_status_mk, h1]
  rfl

/-- C3 witness: the unknown code `7` maps to UNKNOWN. -/
theorem C3_amended_status_mapping_witness :
    (0 : Int) ≤ 7
    ∧ (statusNameOfCode 7 = .ok (claimedStatusName 7)
       ∧ get_contract_status (mkSignerContract [] false [] (0, 0) 7 "h" "c") =
           .ok { signatures := [], is_fully_signed := false, required_signers := [],
                 signed_count := 0, total_signers := 0, status := claimedStatusName 7,
                 document_hash := "h", ipfs_cid := "c" }) :=
  ⟨by decide, C3_amended_status_mapping 7 [] false [] (0, 0) "h" "c" (by decide)⟩

/-- C4 counterexample: `get_contract_status` copies the independent getter
values verbatim, so getters reporting one signed signature, an empty
signature list and zero total signers yield a snapshot violating both
`signed_count = |signatures|` and `signed_count ≤ total_signers`. -/
theorem C4_counterexample_inconsistent_getters :
    get_contract_status (mkSignerContract [] false [] (1, 0) 0 "h" "c") = .ok inconsistentSnapshot
    ∧ inconsistentSnapshot.signed_count ≠ inconsistentSnapshot.signatures.length
    ∧ ¬ inconsistentSnapshot.signed_count ≤ inconsistentSnapshot.total_signers :=
  ⟨rfl, by decide, by decide⟩

/-- C4 (amended): the snapshot passes the getter values through unchanged,
so it satisfies the invariants exactly when the contract getters return
mutually consistent values: `signedCount = |signatures|`,
`signedCount ≤ totalSigners` and `isFullySigned = (signedCount = totalSigners)`. -/
theorem C4_amended_snapshot_invariants (sigs : List SignatureRec) (fs : Bool)
    (rs : List String) (sc ts : Nat) (st : Int) (dh cid : String) (snap : StatusSnapshot)
    (hok : get_contract_status (mkSignerContract sigs fs rs (sc, ts) st dh cid) = .ok snap)
    (h1 : sc = sigs.length) (h2 : sc ≤ ts) (h3 : fs = decide (sc = ts)) :
    snap.signed_count = snap.signatures.length
    ∧ snap.signed_count ≤ snap.total_signers
    ∧ (snap.is_fully_signed = true ↔ snap.signed_count = snap.total_signers) := by
  rw [get_contract_status_mk] at hok
  cases hname : statusNameOfCode st with
  | error e =>
    rw [hname] at hok
    simp [Except.map] at hok
  | ok nm =>
    rw [hname] at hok
    simp only [Except.map, Except.ok.injEq] at hok
    subst hok
    refine ⟨h1, h2, ?_⟩
    simp [h3]

/-- C4 witness: consistent getter values satisfy the invariants. -/
theorem C4_amended_snapshot_invariants_witness :
    (get_contract_status (mkSignerContract [] true [] (0, 0) 0 "h" "c") = .ok consistentSnapshot
     ∧ (0 : Nat) = ([] : List SignatureRec).length
     ∧ (0 : Nat) ≤ 0
     ∧ true = decide ((0 : Nat) = 0))
    ∧ (consistentSnapshot.signed_count = consistentSnapshot.signatures.length
       ∧ consistentSnapshot.signed_count ≤ consistentSnapshot.total_signers
       ∧ (consistentSnapshot.is_fully_signed = true ↔
            consistentSnapshot.signed_count = consistentSnapshot.total_signers)) :=
  ⟨⟨rfl, by decide, by decide, by decide⟩,
   C4_amended_snapshot_invariants [] true [] 0 0 0 "h" "c" consistentSnapshot rfl
     (by decide) (by decide) (by decide)⟩

/-- C7: with no factory address configured, `create_signing_contract`
fails with the configuration error before any transaction work (its
action trace is empty: nothing is built, signed or broadcast) and
`get_user_contracts` returns the empty list; neither raises anything
else. -/
theorem C7_missing_factory_degrades (env : ChainEnv) (fenv : FactoryEnv)
    (document_hash ipfs_cid : String) (required_signers : List String)
    (private_key title description : String) (sequential_signing : Bool)
    (user_address : String) :
    create_signing_contract none env document_hash ipfs_cid required_signers
        private_key title description sequential_signing =
      (.error "Factory address not configured", [])
    ∧ get_user_contracts none fenv user_address = [] :=
  ⟨rfl, rfl⟩

/-- C8: in every run of `create_signing_contract` and of `sign_document`,
whatever the oracle outcomes (including a failing or timing-out receipt
wait), the raw transaction is broadcast at most once: the action trace
never contains `sendRawTransaction` twice. -/
theorem C8_broadcast_at_most_once (factory_address : Option String) (env : ChainEnv)
    (document_hash ipfs_cid : String) (required_signers : List String)
    (private_key title description : String) (sequential_signing : Bool)
    (contract_address metadata : String) :
    (create_signing_contract factory_address env document_hash ipfs_cid required_signers
        private_key title description sequential_signing).2.count
      ChainAction.sendRawTransaction ≤ 1
    ∧ (sign_document env contract_address private_key metadata).2.count
        ChainAction.sendRawTransaction ≤ 1 := by
  constructor
  · unfold create_signing_contract
    by_cases hm : factoryMissing factory_address = true
    · rw [if_pos hm]
      simp
    · rw [if_neg hm]
      cases h1 : env.from_key private_key with
      | error e => try simp [h1]
      | ok sender =>
        try simp only [h1]
        cases h2 : env.get_transaction_count sender with
        | error e => simp [h2, List.count_cons, List.count_nil]
        | ok nonce =>
          simp only [h2]
          cases h3 : env.sign_transaction
              { sender := sender, nonce := nonce, gas := 3000000, gasPrice := 20000000000,
                payload := TxnPayload.createSigningContract document_hash ipfs_cid
                  required_signers sequential_signing title description } private_key with
          | error e => simp [h3, List.count_cons, List.count_nil]
          | ok stx =>
            simp only [h3]
            cases h4 : env.send_raw_transaction stx with
            | error e => simp [h4, List.count_cons, List.count_nil]
            | ok txh =>
              simp only [h4]
              cases h5 : env.wait_for_transaction_receipt txh with
              | error e => simp [h5, List.count_cons, List.count_nil]
              | ok r => simp [h5, List.count_cons, List.count_nil]
  · unfold sign_document
    cases h1 : env.from_key private_key with
    | error e => try simp [h1]
    | ok sender =>
      try simp only [h1]
      cases h2 : env.get_transaction_count sender with
      | error e => simp [h2, List.count_cons, List.count_nil]
      | ok nonce =>
        simp only [h2]
        cases h3 : env.sign_transaction
            { sender := sender, nonce := nonce, gas := 200000, gasPrice := 20000000000,
              payload := TxnPayload.signDocument contract_address metadata } private_key with
        | error e => simp [h3, List.count_cons, List.count_nil]
        | ok stx =>
          simp only [h3]
          cases h4 : env.send_raw_transaction stx with
          | error e => simp [h4, List.count_cons, List.count_nil]
          | ok txh =>
            simp only [h4]
            cases h5 : env.wait_for_transaction_receipt txh with
            | error e => simp [h5, List.count_cons, List.count_nil]
            | ok r => simp [h5, List.count_cons, List.count_nil]

/-- C10: if the per-initiator enumeration itself raises,
`get_user_contracts` returns the empty list — indistinguishable from an
initiator with no contracts. -/
theorem C10_enumeration_failure_yields_empty (fa : String) (env env2 : FactoryEnv)
    (u e : String)
    (h : env.getContractsByInitiator u = .error e)
    (h2 : env2.getContractsByInitiator u = .ok []) :
    get_user_contracts (some fa) env u = []
    ∧ get_user_contracts (some fa) env u = get_user_contracts (some fa) env2 u := by
  have hmain : get_user_contracts (some fa) env u = [] := by
    unfold get_user_contracts
    cases hfa : factoryMissing (some fa) <;> simp [hfa, h]
  have hempty : get_user_contracts (some fa) env2 u = [] := by
    unfold get_user_contracts
    cases hfa : factoryMissing (some fa) <;> simp [hfa, h2, contractsLoop]
  exact ⟨hmain, hmain.trans hempty.symm⟩

/-- C10 witness: a failing enumeration oracle against an empty one. -/
theorem C10_enumeration_failure_yields_empty_witness :
    failingEnumFactory.getContractsByInitiator "0xU" = .error "RPC error"
    ∧ emptyEnumFactory.getContractsByInitiator "0xU" = .ok []
    ∧ (get_user_contracts (some "0xF") failingEnumFactory "0xU" = []
       ∧ get_user_contracts (some "0xF") failingEnumFactory "0xU" =
           get_user_contracts (some "0xF") emptyEnumFactory "0xU") :=
  ⟨rfl, rfl,
   C10_enumeration_failure_yields_empty "0xF" failingEnumFactory emptyEnumFactory
     "0xU" "RPC error" rfl rfl⟩

/-- C5: the directory loop keeps, in enumeration order, exactly the
entries whose enrichment succeeds (it equals a `filterMap` over the
enumerated addresses), and with three addresses whose second enrichment
fails the listing is exactly the enriched first and third entries. -/
theorem C5_directory_partial_failure (env : FactoryEnv) (l : List String)
    (fa u a1 a2 a3 : String) (e1 e3 : ContractEntry) (err : String)
    (hfa : fa.isEmpty = false)
    (henum : env.getContractsByInitiator u = .ok [a1, a2, a3])
    (h1 : enrichContract env a1 = .ok e1)
    (h2 : enrichContract env a2 = .error err)
    (h3 : enrichContract env a3 = .ok e3) :
    contractsLoop env l = l.filterMap (fun a => (enrichContract env a).toOption)
    ∧ get_user_contracts (some fa) env u = [e1, e3] := by
  constructor
  · induction l with
    | nil => rfl
    | cons a as ih =>
      cases h : enrichContract env a <;>
        simp [contractsLoop, h, Except.toOption, ih]
  · unfold get_user_contracts
    simp [factoryMissing, hfa, henum, contractsLoop, h1, h2, h3]

/-- C5 witness: three concrete addresses, the middle one unreachable. -/
theorem C5_directory_partial_failure_witness :
    "0xF".isEmpty = false
    ∧ exampleFactory.getContractsByInitiator "0xU" = .ok ["0x1", "0x2", "0x3"]
    ∧ enrichContract exampleFactory "0x1" = .ok (exampleEntry "0x1")
    ∧ enrichContract exampleFactory "0x2" = .error "contract unreachable"
    ∧ enrichContract exampleFactory "0x3" = .ok (exampleEntry "0x3")
    ∧ (contractsLoop exampleFactory [] =
        List.filterMap (fun a => (enrichContract exampleFactory a).toOption) []
       ∧ get_user_contracts (some "0xF") exampleFactory "0xU" =
           [exampleEntry "0x1", exampleEntry "0x3"]) :=
  ⟨rfl, rfl, rfl, rfl, rfl,
   C5_directory_partial_failure exampleFactory [] "0xF" "0xU" "0x1" "0x2" "0x3"
     (exampleEntry "0x1") (exampleEntry "0x3") "contract unreachable" rfl rfl rfl rfl rfl⟩

/-- C1: the creation-event scan of `create_signing_contract` walks the
receipt's logs in order, skips every entry the decoder rejects, returns
the address of the first entry that decodes, and raises the
creation-event-not-found error exactly when no entry decodes; the final
clause ties the scan to `create_signing_contract` itself once every
chain step succeeds. -/
theorem C1_creation_event_scan (decode : LogEntry → Option String) (logs : List LogEntry)
    (uLog cLog : LogEntry) (addr a : String) (fa sender : String) (nonce : Nat)
    (stx : SignedTxn) (txh : TxHash) (receipt : Receipt)
    (document_hash ipfs_cid private_key title description : String)
    (required_signers : List String) (sequential_signing : Bool)
    (hfa : fa.isEmpty = false)
    (hu : decode uLog = none) (hc : decode cLog = some addr) :
    (extractContractAddress decode logs =
        .error "Could not find ContractCreated event in transaction receipt"
      ↔ ∀ l ∈ logs, decode l = none)
    ∧ (extractContractAddress decode logs = .ok a ↔ logs.findSome? decode = some a)
    ∧ extractContractAddress decode [uLog, cLog] = .ok addr
    ∧ extractContractAddress decode [uLog] =
        .error "Could not find ContractCreated event in transaction receipt"
    ∧ create_signing_contract (some fa) (mkChainEnv sender nonce stx txh receipt decode)
        document_hash ipfs_cid required_signers private_key title description
        sequential_signing =
        (extractContractAddress decode receipt.logs,
         [.buildTransaction, .signTransaction, .sendRawTransaction, .waitForReceipt]) := by
  refine ⟨?_, ?_, ?_, ?_, ?_⟩
  · induction logs with
    | nil => simp [extractContractAddress]
    | cons x ls ih =>
      cases hd : decode x <;>
        simp [extractContractAddress, hd, ih, List.forall_mem_cons]
  · induction logs with
    | nil => simp [extractContractAddress]
    | cons x ls ih =>
      cases hd : decode x <;>
        simp [extractContractAddress, List.findSome?_cons, hd, ih]
  · simp [extractContractAddress, hu, hc]
  · simp [extractContractAddress, hu]
  · simp [create_signing_contract, mkChainEnv, factoryMissing, hfa]

/-- C1 witness: a receipt holding an unrelated log (`5`) before the
creation log (`2`). -/
theorem C1_creation_event_scan_witness :
    "0xF".isEmpty = false
    ∧ exampleDecode 5 = none
    ∧ exampleDecode 2 = some "0xC"
    ∧ ((extractContractAddress exampleDecode [5, 2] =
          .error "Could not find ContractCreated event in transaction receipt"
        ↔ ∀ l ∈ ([5, 2] : List LogEntry), exampleDecode l = none)
       ∧ (extractContractAddress exampleDecode [5, 2] = .ok "0xC" ↔
            List.findSome? exampleDecode [5, 2] = some "0xC")
       ∧ extractContractAddress exampleDecode [5, 2] = .ok "0xC"
       ∧ extractContractAddress exampleDecode [5] =
           .error "Could not find ContractCreated event in transaction receipt"
       ∧ create_signing_contract (some "0xF")
           (mkChainEnv "0xS" 0 ⟨0⟩ ⟨"0xH"⟩ ⟨[5, 2]⟩ exampleDecode)
           "0xDOC" "QmCID" ["0xA"] "0xKEY" "Title" "Desc" false =
           (extractContractAddress exampleDecode (Receipt.mk [5, 2]).logs,
            [.buildTransaction, .signTransaction, .sendRawTransaction, .waitForReceipt])) :=
  ⟨rfl, rfl, rfl,
   C1_creation_event_scan exampleDecode [5, 2] 5 2 "0xC" "0xC" "0xF" "0xS" 0 ⟨0⟩ ⟨"0xH"⟩
     ⟨[5, 2]⟩ "0xDOC" "QmCID" "0xKEY" "Title" "Desc" ["0xA"] false rfl rfl rfl⟩

/-! ## Helper lemmas: `dict.fromkeys` deduplication -/

theorem pyDictFromKeysAux_mem (l : List String) :
    ∀ (seen : List String) (x : String),
      x ∈ pyDictFromKeysAux seen l ↔ x ∈ l ∧ x ∉ seen := by
  induction l with
  | nil => intro seen x; simp [pyDictFromKeysAux]
  | cons a as ih =>
    intro seen x
    by_cases ha : a ∈ seen
    · simp only [pyDictFromKeysAux]
      rw [if_pos ha, ih]
      constructor
      · rintro ⟨h1, h2⟩
        exact ⟨List.mem_cons_of_mem a h1, h2⟩
      · rintro ⟨h1, h2⟩
        rcases List.mem_cons.mp h1 with rfl | h1
        · exact absurd ha h2
        · exact ⟨h1, h2⟩
    · simp only [pyDictFromKeysAux]
      rw [if_neg ha]
      simp only [List.mem_cons, ih]
      constructor
      · rintro (rfl | ⟨h1, h2⟩)
        · exact ⟨Or.inl rfl, ha⟩
        · exact ⟨Or.inr h1, fun hs => h2 (Or.inr hs)⟩
      · rintro ⟨rfl | h1, h2⟩
        · exact Or.inl rfl
        · by_cases hxa : x = a
          · exact Or.inl hxa
          · refine Or.inr ⟨h1, ?_⟩
            rintro (rfl | hs)
            · exact hxa rfl
            · exact h2 hs

theorem pyDictFromKeysAux_sublist (l : List String) :
    ∀ seen, (pyDictFromKeysAux seen l).Sublist l := by
  induction l with
  | nil => intro seen; simp [pyDictFromKeysAux]
  | cons a as ih =>
    intro seen
    simp only [pyDictFromKeysAux]
    by_cases ha : a ∈ seen
    · rw [if_pos ha]
      exact (ih seen).cons a
    · rw [if_neg ha]
      exact (ih (a :: seen)).cons₂ a

theorem pyDictFromKeysAux_pairwise (l : List String) :
    ∀ seen, (pyDictFromKeysAux seen l).Pairwise
      (fun x y => l.indexOf x < l.indexOf y) := by
  induction l with
  | nil => intro seen; simp [pyDictFromKeysAux]
  | cons a as ih =>
    intro seen
    simp only [pyDictFromKeysAux]
    by_cases ha : a ∈ seen
    · rw [if_pos ha]
      refine (ih seen).imp_of_mem ?_
      intro x y hx hy hlt
      obtain ⟨hxl, hxs⟩ := (pyDictFromKeysAux_mem as seen x).mp hx
      obtain ⟨hyl, hys⟩ := (pyDictFromKeysAux_mem as seen y).mp hy
      have hxa : a ≠ x := fun hh => hxs (by rw [← hh]; exact ha)
      have hya : a ≠ y := fun hh => hys (by rw [← hh]; exact ha)
      rw [List.indexOf_cons_ne as hxa, List.indexOf_cons_ne as hya]
      exact Nat.succ_lt_succ hlt
    · rw [if_neg ha]
      refine List.Pairwise.cons ?_ ?_
      · intro y hy
        obtain ⟨hyl, hys⟩ := (pyDictFromKeysAux_mem as (a :: seen) y).mp hy
        have hya : a ≠ y := fun hh => hys (by rw [← hh]; exact List.mem_cons_self a seen)
        rw [List.indexOf_cons_self, List.indexOf_cons_ne as hya]
        exact Nat.succ_pos _
      · refine (ih (a :: seen)).imp_of_mem ?_
        intro x y hx hy hlt
        obtain ⟨hxl, hxs⟩ := (pyDictFromKeysAux_mem as (a :: seen) x).mp hx
        obtain ⟨hyl, hys⟩ := (pyDictFromKeysAux_mem as (a :: seen) y).mp hy
        have hxa : a ≠ x := fun hh => hxs (by rw [← hh]; exact List.mem_cons_self a seen)
        have hya : a ≠ y := fun hh => hys (by rw [← hh]; exact List.mem_cons_self a seen)
        rw [List.indexOf_cons_ne as hxa, List.indexOf_cons_ne as hya]
        exact Nat.succ_lt_succ hlt

theorem pyDictFromKeys_nodup (l : List String) : (pyDictFromKeys l).Nodup :=
  (pyDictFromKeysAux_pairwise l []).imp
    fun hlt hxy => absurd (hxy ▸ hlt) (Nat.lt_irrefl _)

/-- C2: the required-signers list is the initiator first, then the
non-empty caller-supplied addresses, deduplicated keeping first
occurrences: it is a duplicate-free sublist of
`initiator :: filtered-input` with the same members, ordered by first
occurrence (`indexOf` in the input is strictly increasing along it), the
initiator heads it and occurs exactly once, and `[A, B, A, C]` with
initiator `A` yields `[A, B, C]`. -/
theorem C2_required_signers_dedup (init : String) (ss : List String) (a : String) :
    (required_signers_of init ss).head? = some init
    ∧ (required_signers_of init ss).count init = 1
    ∧ (required_signers_of init ss).Nodup
    ∧ (required_signers_of init ss).Sublist (requiredSignersInput init ss)
    ∧ (a ∈ required_signers_of init ss ↔ a ∈ requiredSignersInput init ss)
    ∧ (required_signers_of init ss).Pairwise
        (fun x y => (requiredSignersInput init ss).indexOf x <
          (requiredSignersInput init ss).indexOf y)
    ∧ required_signers_of "A" ["A", "B", "A", "C"] = ["A", "B", "C"] := by
  have hnodup : (required_signers_of init ss).Nodup := pyDictFromKeys_nodup _
  have hmem : ∀ x, x ∈ required_signers_of init ss ↔ x ∈ requiredSignersInput init ss := by
    intro x
    rw [required_signers_of, pyDictFromKeys, pyDictFromKeysAux_mem]
    simp
  have hhead : required_signers_of init ss =
      init :: pyDictFromKeysAux [init] (ss.filter pyStripTruthy) := rfl
  refine ⟨?_, ?_, hnodup, pyDictFromKeysAux_sublist (requiredSignersInput init ss) [],
    hmem a, pyDictFromKeysAux_pairwise (requiredSignersInput init ss) [], by decide⟩
  · rw [hhead]
    rfl
  · exact List.count_eq_one_of_mem hnodup ((hmem init).mpr (List.mem_cons_self _ _))

end OnchainApp
